import Mathlib

/-!
Shallow embedding of `src/utils/requests.ts` from the mangaotaku repository.

The file models the query serializer (`serializeParameters`, the inner helper
of `fetchJson`), the JSON fetcher (`fetchJson`), and the four aggregators
(`getLatestManga`, `searchManga`, `Carousel`, `fetchTopListings`).

Modelling conventions:
- HTTP transport is an oracle: every `fetchJson` call site receives a
  `FetchOutcome` describing what the network returned for that request
  (a parsed body, a non-success status, or a parse failure).  The cover-image
  fetcher `fetchCover` is an oracle function `String → Except JsError String`
  from the requested URL to its result.
- JavaScript exceptions are modelled with `Except JsError`; `JsError.typeError`
  stands for a TypeError raised by a property access on `undefined`/`null`,
  `JsError.httpError s` for the `HTTP error! Status: s` error thrown by
  `fetchJson`, and `JsError.parseError` for a JSON parse failure.
- `console.error` logging is modelled by a `List JsError` accumulated next to
  the result: an error is appended at every point where the source logs it.
- JavaScript `undefined` flowing through optional chains is `Option.none`;
  interpolating `undefined` into a template literal yields the string
  "undefined" (`jsShow`).
- Entity `attributes` follow the `MDManga` TypeScript type: fields the type
  marks optional are `Option`, required ones are plain; attribute fields the
  aggregators never read are elided.
- `Array.prototype.sort` with the random comparator is modelled by an
  arbitrary `shuffle` function, constrained to be a permutation in theorems.
- `Math.random()` is modelled as an exact rational in `[0, 1)`.
-/

namespace Mangaotaku

/-- A JavaScript error as thrown by the request layer: a TypeError from a
property access on undefined/null, the HTTP status error thrown by
`fetchJson` on `!res.ok` (carrying the status code), or a JSON parse error. -/
inductive JsError where
  | typeError : JsError
  | httpError : Nat → JsError
  | parseError : JsError
deriving DecidableEq

/-- Attributes of a relationship entry (`MDCoverArt.attributes` and friends);
only `fileName` is read by the aggregators.  `fileName` is `Option` because a
missing property reads as `undefined`. -/
structure RelAttributes where
  fileName : Option String
deriving DecidableEq

/-- A relationship entry of a manga entity (an embedded `MDEntity`): id, type
tag, and optional attributes. -/
structure MDRel where
  id : String
  type : String
  attributes : Option RelAttributes
deriving DecidableEq

/-- The `MDManga` attributes object, restricted to the fields the aggregators
read.  `title` and `description` are the `KeyValue` language maps, modelled as
association lists in insertion order. -/
structure MangaAttributes where
  title : List (String × String)
  description : List (String × String)
  status : String
  contentRating : Option String
  publicationDemographic : Option String
  updatedAt : String
  tags : List String
deriving DecidableEq

/-- A manga entity envelope (`MDEntity`): id, type tag, optional attributes
and optional relationships. -/
structure MDEntity where
  id : String
  type : String
  attributes : Option MangaAttributes
  relationships : Option (List MDRel)
deriving DecidableEq

/-- The paginated collection envelope (`MDCol`).  The `data` field is
`Option` because the code guards it (`covers?.data?`); envelope metadata
(`result`, `limit`, `offset`, `total`) is never read and is elided.  A `null`
collection is `Option Collection = none` at use sites. -/
structure Collection where
  data : Option (List MDEntity)
deriving DecidableEq

/-- What the network returned for one `fetchJson` request: a parsed body
(possibly the JSON literal `null`), a non-success HTTP status, or a body that
is not valid JSON. -/
inductive FetchOutcome where
  | success : Option Collection → FetchOutcome
  | httpFailure : Nat → FetchOutcome
  | parseFailure : FetchOutcome
deriving DecidableEq

/-! ## Query serializer (`serializeParameters`, inner helper of `fetchJson`) -/

/-- One value of the `QueryParam` mapping: a scalar string, a scalar number,
an array of strings, or a nested object of string pairs. -/
inductive ParamValue where
  | str : String → ParamValue
  | num : Int → ParamValue
  | arr : List String → ParamValue
  | obj : List (String × String) → ParamValue
deriving DecidableEq

/-- The name/value pairs `serializeParameters` appends to the
`URLSearchParams` for one entry: arrays become repeated `key[]` pairs, nested
objects become `key[sub]` pairs, scalars are appended as-is (numbers are
stringified by `append`). -/
def paramPairs (p : String × ParamValue) : List (String × String) :=
  match p.snd with
  | .str s => [(p.fst, s)]
  | .num n => [(p.fst, toString n)]
  | .arr vs => vs.map (fun v => (p.fst ++ "[]", v))
  | .obj kvs => kvs.map (fun kv => (p.fst ++ "[" ++ kv.fst ++ "]", kv.snd))

/-- Uppercase hexadecimal digit, as produced by percent-encoding. -/
def hexDigit (n : Nat) : Char :=
  if n < 10 then Char.ofNat (48 + n) else Char.ofNat (55 + n)

/-- Percent-encode one byte as `%XY` with uppercase hex. -/
def percentByte (b : Nat) : String :=
  String.mk ['%', hexDigit (b / 16), hexDigit (b % 16)]

/-- UTF-8 encoding of one code point, as a list of byte values. -/
def utf8Bytes (c : Char) : List Nat :=
  let n := c.toNat
  if n < 128 then [n]
  else if n < 2048 then [192 + n / 64, 128 + n % 64]
  else if n < 65536 then [224 + n / 4096, 128 + (n / 64) % 64, 128 + n % 64]
  else [240 + n / 262144, 128 + (n / 4096) % 64, 128 + (n / 64) % 64, 128 + n % 64]

/-- The application/x-www-form-urlencoded serialization of one character, as
used by `URLSearchParams.toString()`: space becomes `+`; ASCII alphanumerics
and `*`, `-`, `.`, `_` pass through; every other character is percent-encoded
byte-wise.  In particular `[` becomes `%5B` and `]` becomes `%5D`. -/
def formEncodeChar (c : Char) : String :=
  if c = ' ' then "+"
  else if c.isAlphanum || c = '*' || c = '-' || c = '.' || c = '_' then
    String.singleton c
  else String.join ((utf8Bytes c).map percentByte)

/-- form-urlencoded serialization of a whole string. -/
def formEncode (s : String) : String :=
  String.join (s.toList.map formEncodeChar)

/-- `serializeParameters` from `fetchJson`: append every entry's pairs to a
`URLSearchParams` in insertion order and serialize it
(`searchParams.toString()`), which form-urlencodes both names and values. -/
def serializeParameters (params : List (String × ParamValue)) : String :=
  String.intercalate "&"
    ((List.flatten (params.map paramPairs)).map
      (fun kv => formEncode kv.fst ++ "=" ++ formEncode kv.snd))

/-- Boolean substring test: `needle` occurs contiguously in `hay`. -/
def strContains (hay needle : String) : Bool :=
  (List.range (hay.length + 1)).any
    (fun i => (hay.toList.drop i).take needle.length == needle.toList)

/-! ## JSON fetcher -/

/-- `fetchJson` on a given transport outcome: on a non-success status it
throws `HTTP error! Status: s` (modelled as `JsError.httpError s`), on a parse
failure it throws a parse error; the `catch` block logs the error
(`console.error`) and rethrows.  Returns the result together with the log. -/
def fetchJson (resp : FetchOutcome) : Except JsError (Option Collection) × List JsError :=
  match resp with
  | .success v => (.ok v, [])
  | .httpFailure s => (.error (.httpError s), [.httpError s])
  | .parseFailure => (.error .parseError, [.parseError])

/-- `fetchCovers` is `fetchJson` on the `manga` endpoint with `ids[]`,
`order`, and `includes[]` parameters; the response is the transport oracle. -/
def fetchCovers (resp : FetchOutcome) : Except JsError (Option Collection) × List JsError :=
  fetchJson resp

/-- `fetchLatestChapters` is `fetchJson` on the `manga` endpoint ordered by
`updatedAt` descending. -/
def fetchLatestChapters (resp : FetchOutcome) : Except JsError (Option Collection) × List JsError :=
  fetchJson resp

/-! ## Shared view-model helpers -/

/-- Interpolate a possibly-`undefined` value into a template literal:
JavaScript stringifies `undefined` as "undefined". -/
def jsShow : Option String → String
  | some s => s
  | none => "undefined"

/-- JavaScript truthiness of a possibly-`undefined` string: `undefined` and
the empty string are falsy. -/
def falsy : Option String → Bool
  | none => true
  | some s => s == ""

/-- JavaScript `a || b` on possibly-`undefined` strings. -/
def jsOr (a b : Option String) : Option String :=
  if falsy a then b else a

/-- Property access on a `KeyValue` language map (`title.en`,
`title["ja-ro"]`): the first binding for the key, or `undefined`. -/
def lookupKey (m : List (String × String)) (k : String) : Option String :=
  (m.find? (fun p => p.fst == k)).map (fun p => p.snd)

/-- The image host prefix used by every cover URL. -/
def coversBase : String := "https://uploads.mangadex.org/covers/"

/-- The guarded cover-art scan of `getLatestManga` and `searchManga`:
`k?.relationships?.find(t => t?.type === "cover_art")?.attributes?.fileName`.
Every step is optional-chained, so a missing link yields `undefined`. -/
def findCoverFileName (rels : Option (List MDRel)) : Option String :=
  match rels with
  | none => none
  | some rs =>
    match rs.find? (fun t => t.type == "cover_art") with
    | none => none
    | some r =>
      match r.attributes with
      | none => none
      | some a => a.fileName

/-- The cover URL built by `getLatestManga` and `searchManga`:
a template literal around the guarded scan, so a missing file name
interpolates as "undefined". -/
def latestCoverUrl (k : MDEntity) : String :=
  coversBase ++ k.id ++ "/" ++ jsShow (findCoverFileName k.relationships) ++ ".256.jpg"

/-- The cover URL built by `Carousel`:
`manga.relationships.find(t => t.type === "cover_art").attributes.fileName`
with no optional chaining, so a missing `relationships` list, a failed scan,
or missing `attributes` throws a TypeError. -/
def carouselCoverUrl (m : MDEntity) : Except JsError String :=
  match m.relationships with
  | none => .error .typeError
  | some rs =>
    match rs.find? (fun t => t.type == "cover_art") with
    | none => .error .typeError
    | some r =>
      match r.attributes with
      | none => .error .typeError
      | some a => .ok (coversBase ++ m.id ++ "/" ++ jsShow a.fileName ++ ".256.jpg")

/-- The view model built per item by `getLatestManga` (and, with an identical
inline mapper, by `searchManga`). -/
structure LatestItem where
  id : String
  updatedAt : Option String
  cover : String
  title : Option String
deriving DecidableEq

/-- The preferred-language fallback chain of `getLatestManga`/`searchManga`:
`title?.en || title?.["ja-ro"] || title?.ja`, all optional-chained through
`attributes`. -/
def latestTitle (a : Option MangaAttributes) : Option String :=
  match a with
  | none => none
  | some attrs =>
    jsOr (jsOr (lookupKey attrs.title "en") (lookupKey attrs.title "ja-ro"))
      (lookupKey attrs.title "ja")

/-- The per-item mapper of `getLatestManga`/`searchManga`: fully
optional-chained field reads plus an awaited `fetchCover` of the constructed
URL.  The only failure source is the cover fetch itself. -/
def latestItem (fc : String → Except JsError String) (k : MDEntity) :
    Except JsError LatestItem :=
  match fc (latestCoverUrl k) with
  | .error e => .error e
  | .ok c =>
    .ok { id := k.id
          updatedAt := k.attributes.map (fun a => a.updatedAt)
          cover := c
          title := latestTitle k.attributes }

/-- The view model built per item by `Carousel`. -/
structure CarouselItem where
  id : String
  tags : List String
  cover : String
  title : Option String
  contentRating : Option String
  publicationDemographic : Option String
  status : String
  description : Option String
  type : String
deriving DecidableEq

/-- The per-item mapper of `Carousel`: `manga.attributes.tags`,
`manga.relationships.find(...).attributes.fileName`, `manga.attributes.title.en`
etc. are read without optional chaining, so missing `attributes` or a failed
cover-art scan throws a TypeError; the title chain is only
`title.en || title?.["ja-ro"]` (no `ja` step). -/
def carouselItem (fc : String → Except JsError String) (m : MDEntity) :
    Except JsError CarouselItem :=
  match m.attributes with
  | none => .error .typeError
  | some a =>
    match carouselCoverUrl m with
    | .error e => .error e
    | .ok url =>
      match fc url with
      | .error e => .error e
      | .ok c =>
        .ok { id := m.id
              tags := a.tags
              cover := c
              title := jsOr (lookupKey a.title "en") (lookupKey a.title "ja-ro")
              contentRating := a.contentRating
              publicationDemographic := a.publicationDemographic
              status := a.status
              description := lookupKey a.description "en"
              type := m.type }

/-- `Promise.all` over already-determined per-item computations: the joint
await resolves with the list of values, or rejects as soon as any item
rejects, with no partial result. -/
def promiseAll {α : Type} (xs : List (Except JsError α)) : Except JsError (List α) :=
  match xs with
  | [] => .ok []
  | x :: rest =>
    match x with
    | .error e => .error e
    | .ok v =>
      match promiseAll rest with
      | .error e => .error e
      | .ok vs => .ok (v :: vs)

/-- `latest?.data.map((k) => k.id)`: a `null` collection short-circuits to
`undefined`, but a present collection whose `data` is absent throws a
TypeError (`.map` on `undefined` — only `latest` is optional-chained). -/
def mapIds (c : Option Collection) : Except JsError (Option (List String)) :=
  match c with
  | none => .ok none
  | some col =>
    match col.data with
    | none => .error .typeError
    | some d => .ok (some (d.map (fun k => k.id)))

/-- `covers?.data?`: the entity list of a collection, or `undefined` when the
collection is `null` or its `data` field is absent. -/
def coversItems (c : Option Collection) : Option (List MDEntity) :=
  match c with
  | none => none
  | some col => col.data

/-! ## Aggregators -/

/-- `getLatestManga`: fetch the latest listing, map its ids, fetch covers,
then build the view models with `Promise.all` over
`covers?.data?.map(...) || []`; the outer `catch` logs and rethrows. -/
def getLatestManga (fc : String → Except JsError String)
    (latestResp coversResp : FetchOutcome) :
    Except JsError (List LatestItem) × List JsError :=
  let step := fetchLatestChapters latestResp
  match step.fst with
  | .error e => (.error e, step.snd ++ [e])
  | .ok latest =>
    match mapIds latest with
    | .error e => (.error e, step.snd ++ [e])
    | .ok _latestIds =>
      let covStep := fetchCovers coversResp
      match covStep.fst with
      | .error e => (.error e, step.snd ++ covStep.snd ++ [e])
      | .ok covers =>
        let items :=
          match coversItems covers with
          | none => []
          | some d => d.map (latestItem fc)
        match promiseAll items with
        | .error e => (.error e, step.snd ++ covStep.snd ++ [e])
        | .ok vs => (.ok vs, step.snd ++ covStep.snd)

/-- `searchManga`: identical pipeline to `getLatestManga`, with the primary
listing filtered by the search string (the inline per-item mapper in the
source is character-for-character the same as `getLatestManga`'s). -/
def searchManga (_search : String) (fc : String → Except JsError String)
    (searchResp coversResp : FetchOutcome) :
    Except JsError (List LatestItem) × List JsError :=
  let step := fetchJson searchResp
  match step.fst with
  | .error e => (.error e, step.snd ++ [e])
  | .ok searched =>
    match mapIds searched with
    | .error e => (.error e, step.snd ++ [e])
    | .ok _searchedIds =>
      let covStep := fetchCovers coversResp
      match covStep.fst with
      | .error e => (.error e, step.snd ++ covStep.snd ++ [e])
      | .ok covers =>
        let items :=
          match coversItems covers with
          | none => []
          | some d => d.map (latestItem fc)
        match promiseAll items with
        | .error e => (.error e, step.snd ++ covStep.snd ++ [e])
        | .ok vs => (.ok vs, step.snd ++ covStep.snd)

/-- `Math.floor(Math.random() * 200)` with the random draw as an exact
rational `r ∈ [0, 1)`. -/
def randomOffset (r : ℚ) : ℤ := Int.floor (r * 200)

/-- The `limit` parameter of the Carousel listing request. -/
def carouselLimit : ℤ := 20

/-- The inner `getRandomManga` of `Carousel`:
`mangaData?.data?.sort(() => Math.random() - 0.5)` followed by an unguarded
`shuffledManga.slice(0, count)`, so a `null` collection or absent `data`
throws a TypeError; otherwise the first `count` elements of the shuffled
page. -/
def getRandomManga (shuffle : List MDEntity → List MDEntity)
    (mangaData : Option Collection) (count : Nat) : Except JsError (List MDEntity) :=
  match coversItems mangaData with
  | none => .error .typeError
  | some d => .ok ((shuffle d).take count)

/-- `Carousel`: fetch a window at a random offset, fetch covers for its ids,
select 6 entities via `getRandomManga`, and build the view models with
`Promise.all`; the outer `catch` logs and rethrows. -/
def Carousel (fc : String → Except JsError String) (r : ℚ)
    (shuffle : List MDEntity → List MDEntity)
    (listingResp coversResp : FetchOutcome) :
    Except JsError (List CarouselItem) × List JsError :=
  let _offset := randomOffset r
  let step := fetchJson listingResp
  match step.fst with
  | .error e => (.error e, step.snd ++ [e])
  | .ok _req =>
    let covStep := fetchCovers coversResp
    match covStep.fst with
    | .error e => (.error e, step.snd ++ covStep.snd ++ [e])
    | .ok manga =>
      match getRandomManga shuffle manga 6 with
      | .error e => (.error e, step.snd ++ covStep.snd ++ [e])
      | .ok selectedManga =>
        match promiseAll (selectedManga.map (carouselItem fc)) with
        | .error e => (.error e, step.snd ++ covStep.snd ++ [e])
        | .ok vs => (.ok vs, step.snd ++ covStep.snd)

/-- The result object of `fetchTopListings`; each field is the `data` field
of the corresponding covers collection (possibly `undefined`). -/
structure TopListings where
  popular : Option (List MDEntity)
  topRated : Option (List MDEntity)
  topRead : Option (List MDEntity)
deriving DecidableEq

/-- `req.data.map((manga) => manga.id)` with no optional chaining: a `null`
collection or absent `data` throws a TypeError. -/
def colDataIds (c : Option Collection) : Except JsError (List String) :=
  match c with
  | none => .error .typeError
  | some col =>
    match col.data with
    | none => .error .typeError
    | some d => .ok (d.map (fun k => k.id))

/-- `covers.data` with no optional chaining on the collection: a `null`
collection throws a TypeError; an absent `data` field reads as `undefined`. -/
def colDataField (c : Option Collection) : Except JsError (Option (List MDEntity)) :=
  match c with
  | none => .error .typeError
  | some col => .ok col.data

/-- The `Promise.all` of the three ranked listing requests: resolves with the
triple, or rejects with the first failure, with no partial result. -/
def promiseAll3 (a b c : Except JsError (Option Collection)) :
    Except JsError (Option Collection × Option Collection × Option Collection) :=
  match a with
  | .error e => .error e
  | .ok va =>
    match b with
    | .error e => .error e
    | .ok vb =>
      match c with
      | .error e => .error e
      | .ok vc => .ok (va, vb, vc)

/-- `fetchTopListings`: the three ranked queries (by `followedCount`, by
`rating`, by `readingProgress`, each with limit 10) are issued as one batch
and awaited jointly via `Promise.all` (all three transports run, so all three
log on failure); then covers are fetched per list and the three `data` fields
returned; the outer `catch` logs and rethrows. -/
def fetchTopListings (r1 r2 r3 c1 c2 c3 : FetchOutcome) :
    Except JsError TopListings × List JsError :=
  let s1 := fetchJson r1
  let s2 := fetchJson r2
  let s3 := fetchJson r3
  let log0 := s1.snd ++ s2.snd ++ s3.snd
  match promiseAll3 s1.fst s2.fst s3.fst with
  | .error e => (.error e, log0 ++ [e])
  | .ok (reqTopFollowed, reqTopRated, reqTopRead) =>
    match colDataIds reqTopFollowed with
    | .error e => (.error e, log0 ++ [e])
    | .ok _ids1 =>
      let sc1 := fetchCovers c1
      match sc1.fst with
      | .error e => (.error e, log0 ++ sc1.snd ++ [e])
      | .ok popular =>
        match colDataIds reqTopRated with
        | .error e => (.error e, log0 ++ sc1.snd ++ [e])
        | .ok _ids2 =>
          let sc2 := fetchCovers c2
          match sc2.fst with
          | .error e => (.error e, log0 ++ sc1.snd ++ sc2.snd ++ [e])
          | .ok topRated =>
            match colDataIds reqTopRead with
            | .error e => (.error e, log0 ++ sc1.snd ++ sc2.snd ++ [e])
            | .ok _ids3 =>
              let sc3 := fetchCovers c3
              match sc3.fst with
              | .error e => (.error e, log0 ++ sc1.snd ++ sc2.snd ++ sc3.snd ++ [e])
              | .ok topRead =>
                let logAll := log0 ++ sc1.snd ++ sc2.snd ++ sc3.snd
                match colDataField popular with
                | .error e => (.error e, logAll ++ [e])
                | .ok popularData =>
                  match colDataField topRated with
                  | .error e => (.error e, logAll ++ [e])
                  | .ok topRatedData =>
                    match colDataField topRead with
                    | .error e => (.error e, logAll ++ [e])
                    | .ok topReadData =>
                      (.ok { popular := popularData
                             topRated := topRatedData
                             topRead := topReadData }, logAll)

/-- A minimal manga entity with a given id, used in concrete instantiations. -/
def mkEntity (s : String) : MDEntity :=
  { id := s, type := "manga", attributes := none, relationships := none }

/-! ## Theorems about the claims -/

/-- C8: the query serializer, applied to the empty parameter mapping, does not
throw (it is a total function in this embedding) and produces the empty query
string, so `fetchJson` can be called with no parameters without raising during
serialization. -/
theorem c8_empty_serialization : serializeParameters [] = "" := rfl

/-- C2 counterexample: for the mapping with `ids` bound to `["a", "b"]`, the
serialized query string does NOT contain the literal substring
`ids[]=a&ids[]=b`, because `URLSearchParams.toString()` percent-encodes the
bracket characters; the output is `ids%5B%5D=a&ids%5B%5D=b`. -/
theorem c2_counterexample :
    strContains (serializeParameters [("ids", ParamValue.arr ["a", "b"])])
      "ids[]=a&ids[]=b" = false
    ∧ serializeParameters [("ids", ParamValue.arr ["a", "b"])]
      = "ids%5B%5D=a&ids%5B%5D=b" :=
  ⟨by decide, rfl⟩

/-- C2 (amended): for `ids` bound to `["a", "b"]` the serialized query string
is `ids%5B%5D=a&ids%5B%5D=b` (repeated `ids[]` pairs with the brackets
percent-encoded, array order preserved); for `order` bound to the nested
object `updatedAt: desc` it is `order%5BupdatedAt%5D=desc`; scalar values are
appended without bracket decoration, and key order in the output follows
insertion order of the input mapping. -/
theorem c2_serialization :
    serializeParameters [("ids", ParamValue.arr ["a", "b"])]
      = "ids%5B%5D=a&ids%5B%5D=b"
    ∧ serializeParameters [("order", ParamValue.obj [("updatedAt", "desc")])]
      = "order%5BupdatedAt%5D=desc"
    ∧ serializeParameters [("title", ParamValue.str "naruto"), ("limit", ParamValue.num 10)]
      = "title=naruto&limit=10"
    ∧ serializeParameters [("limit", ParamValue.num 10), ("title", ParamValue.str "naruto")]
      = "limit=10&title=naruto" :=
  ⟨rfl, rfl, rfl, rfl⟩

/-- C1: for every aggregator (`getLatestManga`, `searchManga`, `Carousel`,
`fetchTopListings`), if the primary listing request returns a non-success
status `s`, the aggregator rejects with the error carrying `s`, the error is
logged, and no partial view-model array is returned (the result is an error,
not a list). -/
theorem c1_listing_failure_propagation (s : Nat) (q : String)
    (fc : String → Except JsError String) (shuffle : List MDEntity → List MDEntity)
    (r : ℚ) (resp k1 k2 c1 c2 c3 : FetchOutcome) (v1 v2 : Option Collection) :
    (getLatestManga fc (.httpFailure s) resp).fst = .error (.httpError s)
    ∧ JsError.httpError s ∈ (getLatestManga fc (.httpFailure s) resp).snd
    ∧ (searchManga q fc (.httpFailure s) resp).fst = .error (.httpError s)
    ∧ JsError.httpError s ∈ (searchManga q fc (.httpFailure s) resp).snd
    ∧ (Carousel fc r shuffle (.httpFailure s) resp).fst = .error (.httpError s)
    ∧ JsError.httpError s ∈ (Carousel fc r shuffle (.httpFailure s) resp).snd
    ∧ (fetchTopListings (.httpFailure s) k1 k2 c1 c2 c3).fst = .error (.httpError s)
    ∧ JsError.httpError s ∈ (fetchTopListings (.httpFailure s) k1 k2 c1 c2 c3).snd
    ∧ (fetchTopListings (.success v1) (.httpFailure s) k2 c1 c2 c3).fst
        = .error (.httpError s)
    ∧ (fetchTopListings (.success v1) (.success v2) (.httpFailure s) c1 c2 c3).fst
        = .error (.httpError s) := by
  refine ⟨rfl, ?_, rfl, ?_, rfl, ?_, rfl, ?_, rfl, rfl⟩ <;>
    simp [getLatestManga, searchManga, Carousel, fetchTopListings,
      fetchLatestChapters, fetchCovers, fetchJson, promiseAll3]

/-- C7: in `fetchTopListings` the three ranked listing queries are combined
into one jointly-awaited `Promise.all` batch; if any one of the three fails,
the whole call rejects with that failure and no partial result, and when all
three succeed the three lists are resolved independently into the result. -/
theorem c7_top_listings_all_or_nothing (s : Nat) (k1 k2 c1 c2 c3 : FetchOutcome)
    (v1 v2 : Option Collection) (d1 d2 d3 e1 e2 e3 : List MDEntity) :
    (fetchTopListings (.httpFailure s) k1 k2 c1 c2 c3).fst = .error (.httpError s)
    ∧ (fetchTopListings (.success v1) (.httpFailure s) k2 c1 c2 c3).fst
        = .error (.httpError s)
    ∧ (fetchTopListings (.success v1) (.success v2) (.httpFailure s) c1 c2 c3).fst
        = .error (.httpError s)
    ∧ (fetchTopListings (.success v1) (.success v2) .parseFailure c1 c2 c3).fst
        = .error .parseError
    ∧ (fetchTopListings
        (.success (some { data := some d1 })) (.success (some { data := some d2 }))
        (.success (some { data := some d3 })) (.success (some { data := some e1 }))
        (.success (some { data := some e2 })) (.success (some { data := some e3 }))).fst
      = .ok { popular := some e1, topRated := some e2, topRead := some e3 } :=
  ⟨rfl, rfl, rfl, rfl, rfl⟩

/-- C9: in `getLatestManga` and `searchManga`, when the second
(cover-resolution) call resolves to `null`, or to a collection whose `data`
field is absent, the aggregator resolves successfully with the empty array
rather than rejecting (`covers?.data?.map(...) || []`). -/
theorem c9_null_covers_empty (q : String) (fc : String → Except JsError String)
    (d : List MDEntity) :
    (getLatestManga fc (.success (some { data := some d })) (.success none)).fst = .ok []
    ∧ (getLatestManga fc (.success (some { data := some d }))
        (.success (some { data := none }))).fst = .ok []
    ∧ (searchManga q fc (.success (some { data := some d })) (.success none)).fst = .ok []
    ∧ (searchManga q fc (.success (some { data := some d }))
        (.success (some { data := none }))).fst = .ok [] :=
  ⟨rfl, rfl, rfl, rfl⟩

/-- C10: for every random draw `r` in `[0, 1)`, the Carousel pagination
offset `Math.floor(r * 200)` is an integer between 0 and 199, so the fetched
window of `carouselLimit = 20` entries always lies within the first 219
entries of the ranking. -/
theorem c10_random_offset_range (r : ℚ) (h0 : 0 ≤ r) (h1 : r < 1) :
    0 ≤ randomOffset r ∧ randomOffset r ≤ 199
    ∧ randomOffset r + carouselLimit ≤ 219 := by
  have hlow : (0 : ℤ) ≤ randomOffset r := by
    rw [randomOffset, Int.le_floor]
    push_cast
    nlinarith
  have hhigh : randomOffset r < 200 := by
    rw [randomOffset, Int.floor_lt]
    push_cast
    nlinarith
  have h199 : randomOffset r ≤ 199 := by
    have h2 := Int.lt_iff_add_one_le.mp hhigh
    linarith
  refine ⟨hlow, h199, ?_⟩
  show randomOffset r + 20 ≤ 219
  linarith

/-- C10 witness: the hypotheses of `c10_random_offset_range` hold at the
concrete draw `r = 1/2`, and the offset bounds follow there. -/
theorem c10_random_offset_range_witness :
    (0 : ℚ) ≤ 1 / 2 ∧ (1 / 2 : ℚ) < 1
    ∧ (0 ≤ randomOffset (1 / 2) ∧ randomOffset (1 / 2) ≤ 199
        ∧ randomOffset (1 / 2) + carouselLimit ≤ 219) :=
  ⟨by norm_num, by norm_num,
    c10_random_offset_range (1 / 2) (by norm_num) (by norm_num)⟩

/-- Helper: regroup the cover URL concatenation around a symbolic manga id,
folding the literal pieces on the right. -/
theorem coverUrlAppend (s fn : String) :
    coversBase ++ s ++ "/" ++ fn ++ ".256.jpg"
      = coversBase ++ s ++ ("/" ++ fn ++ ".256.jpg") := by
  rw [String.append_assoc (coversBase ++ s), String.append_assoc (coversBase ++ s)]

/-- C3 counterexample: a manga entity whose relationships list contains an
entry with type `cover_art` and `attributes.fileName = "x.jpg"` (as the claim
requires), but for which the constructed image URL is NOT
`https://uploads.mangadex.org/covers/m1/x.jpg.256.jpg`: the scan uses
`Array.prototype.find`, which returns the first `cover_art` entry, here one
with fileName `y.jpg`. -/
theorem c3_counterexample :
    ((MDRel.mk "r2" "cover_art" (some (RelAttributes.mk (some "x.jpg"))))
        ∈ [MDRel.mk "r1" "cover_art" (some (RelAttributes.mk (some "y.jpg"))),
           MDRel.mk "r2" "cover_art" (some (RelAttributes.mk (some "x.jpg")))]
      ∧ (MDRel.mk "r2" "cover_art" (some (RelAttributes.mk (some "x.jpg")))).type
          = "cover_art"
      ∧ (MDRel.mk "r2" "cover_art" (some (RelAttributes.mk (some "x.jpg")))).attributes
          = some (RelAttributes.mk (some "x.jpg")))
    ∧ latestCoverUrl (MDEntity.mk "m1" "manga" none
        (some [MDRel.mk "r1" "cover_art" (some (RelAttributes.mk (some "y.jpg"))),
               MDRel.mk "r2" "cover_art" (some (RelAttributes.mk (some "x.jpg")))]))
        ≠ "https://uploads.mangadex.org/covers/m1/x.jpg.256.jpg"
    ∧ latestCoverUrl (MDEntity.mk "m1" "manga" none
        (some [MDRel.mk "r1" "cover_art" (some (RelAttributes.mk (some "y.jpg"))),
               MDRel.mk "r2" "cover_art" (some (RelAttributes.mk (some "x.jpg")))]))
        = "https://uploads.mangadex.org/covers/m1/y.jpg.256.jpg" :=
  ⟨⟨by decide, rfl, rfl⟩, by decide, rfl⟩

/-- C3 (amended): for every manga entity whose relationships scan finds, as
its FIRST entry with type `cover_art`, one with `attributes.fileName =
"x.jpg"`, the image URL constructed both by `getLatestManga`/`searchManga`
and by `Carousel` equals
`https://uploads.mangadex.org/covers/<mangaId>/x.jpg.256.jpg`.  (When several
`cover_art` entries are present, the first found is the one used.) -/
theorem c3_cover_url (m : MDEntity) (rels : List MDRel) (r : MDRel) (a : RelAttributes)
    (h1 : m.relationships = some rels)
    (h2 : rels.find? (fun t => t.type == "cover_art") = some r)
    (h3 : r.attributes = some a)
    (h4 : a.fileName = some "x.jpg") :
    latestCoverUrl m = "https://uploads.mangadex.org/covers/" ++ m.id ++ "/x.jpg.256.jpg"
    ∧ carouselCoverUrl m
        = .ok ("https://uploads.mangadex.org/covers/" ++ m.id ++ "/x.jpg.256.jpg") := by
  have hfind : findCoverFileName m.relationships = some "x.jpg" := by
    rw [h1]
    simp only [findCoverFileName, h2, h3, h4]
  constructor
  · rw [latestCoverUrl, hfind]
    exact coverUrlAppend m.id "x.jpg"
  · simp only [carouselCoverUrl, h1, h2, h3, h4, jsShow]
    rw [coverUrlAppend m.id "x.jpg"]
    rfl

/-- C3 witness: a concrete manga entity with a single `cover_art`
relationship carrying fileName `x.jpg` satisfies the hypotheses of
`c3_cover_url`, and both constructed URLs equal the claimed one. -/
theorem c3_cover_url_witness :
    ((MDEntity.mk "m1" "manga" none
        (some [MDRel.mk "r1" "cover_art" (some (RelAttributes.mk (some "x.jpg")))])).relationships
        = some [MDRel.mk "r1" "cover_art" (some (RelAttributes.mk (some "x.jpg")))]
      ∧ [MDRel.mk "r1" "cover_art" (some (RelAttributes.mk (some "x.jpg")))].find?
          (fun t => t.type == "cover_art")
          = some (MDRel.mk "r1" "cover_art" (some (RelAttributes.mk (some "x.jpg")))))
    ∧ latestCoverUrl (MDEntity.mk "m1" "manga" none
        (some [MDRel.mk "r1" "cover_art" (some (RelAttributes.mk (some "x.jpg")))]))
        = "https://uploads.mangadex.org/covers/m1/x.jpg.256.jpg"
    ∧ carouselCoverUrl (MDEntity.mk "m1" "manga" none
        (some [MDRel.mk "r1" "cover_art" (some (RelAttributes.mk (some "x.jpg")))]))
        = .ok "https://uploads.mangadex.org/covers/m1/x.jpg.256.jpg" := by
  refine ⟨⟨rfl, rfl⟩, ?_, ?_⟩
  · exact (c3_cover_url
      (MDEntity.mk "m1" "manga" none
        (some [MDRel.mk "r1" "cover_art" (some (RelAttributes.mk (some "x.jpg")))]))
      [MDRel.mk "r1" "cover_art" (some (RelAttributes.mk (some "x.jpg")))]
      (MDRel.mk "r1" "cover_art" (some (RelAttributes.mk (some "x.jpg"))))
      (RelAttributes.mk (some "x.jpg")) rfl rfl rfl rfl).1
  · exact (c3_cover_url
      (MDEntity.mk "m1" "manga" none
        (some [MDRel.mk "r1" "cover_art" (some (RelAttributes.mk (some "x.jpg")))]))
      [MDRel.mk "r1" "cover_art" (some (RelAttributes.mk (some "x.jpg")))]
      (MDRel.mk "r1" "cover_art" (some (RelAttributes.mk (some "x.jpg"))))
      (RelAttributes.mk (some "x.jpg")) rfl rfl rfl rfl).2

/-- C4 counterexample: a manga entity whose relationships list contains no
`cover_art` entry, processed by `Carousel` (as the claim's sources require):
the unguarded access `manga.relationships.find(...).attributes.fileName`
throws a TypeError, so the aggregator DOES throw on that account, refuting
"the absence of a cover-art relationship never raises an exception". -/
theorem c4_counterexample :
    (∀ rel ∈ [MDRel.mk "r1" "author" none], rel.type ≠ "cover_art")
    ∧ (Carousel (fun _ => .ok "data") 0 id
        (.success (some { data := some [MDEntity.mk "m1" "manga"
          (some (MangaAttributes.mk [("en", "T")] [("en", "D")] "ongoing" none none
            "2024" [])) (some [MDRel.mk "r1" "author" none])] }))
        (.success (some { data := some [MDEntity.mk "m1" "manga"
          (some (MangaAttributes.mk [("en", "T")] [("en", "D")] "ongoing" none none
            "2024" [])) (some [MDRel.mk "r1" "author" none])] }))).fst
      = .error .typeError :=
  ⟨by decide, rfl⟩

/-- C4 (amended): when a manga entity's relationships list contains no
`cover_art` entry, the guarded scan of `getLatestManga`/`searchManga` yields
`undefined`, the URL interpolates the string "undefined", and the per-item
mapper does not throw (it succeeds whenever the cover fetch does); `Carousel`,
by contrast, reads `.attributes.fileName` off the scan result without
optional chaining and throws a TypeError for such an entity. -/
theorem c4_missing_cover_art (fc : String → Except JsError String)
    (k m : MDEntity) (rk rm : List MDRel) (a : MangaAttributes) (c : String)
    (hk : k.relationships = some rk)
    (hknone : ∀ rel ∈ rk, rel.type ≠ "cover_art")
    (hm : m.attributes = some a)
    (hmr : m.relationships = some rm)
    (hmnone : ∀ rel ∈ rm, rel.type ≠ "cover_art")
    (hfc : fc (latestCoverUrl k) = .ok c) :
    findCoverFileName k.relationships = none
    ∧ latestCoverUrl k = coversBase ++ k.id ++ ("/undefined.256.jpg")
    ∧ latestItem fc k
        = .ok { id := k.id, updatedAt := k.attributes.map (fun x => x.updatedAt),
                cover := c, title := latestTitle k.attributes }
    ∧ carouselItem fc m = .error .typeError := by
  have hfindk : rk.find? (fun t => t.type == "cover_art") = none := by
    rw [List.find?_eq_none]
    intro x hx
    simpa using hknone x hx
  have hfindm : rm.find? (fun t => t.type == "cover_art") = none := by
    rw [List.find?_eq_none]
    intro x hx
    simpa using hmnone x hx
  have hnone : findCoverFileName k.relationships = none := by
    rw [hk]
    simp only [findCoverFileName, hfindk]
  have hurl : latestCoverUrl k = coversBase ++ k.id ++ ("/undefined.256.jpg") := by
    rw [latestCoverUrl, hnone]
    exact coverUrlAppend k.id "undefined"
  refine ⟨hnone, hurl, ?_, ?_⟩
  · rw [latestItem, hfc]
  · simp only [carouselItem, hm, carouselCoverUrl, hmr, hfindm]

/-- C4 witness: a concrete entity with a non-empty relationships list holding
no `cover_art` entry satisfies the hypotheses of `c4_missing_cover_art`; the
guarded pipeline builds its view model with an "undefined" URL while the
Carousel mapper throws a TypeError. -/
theorem c4_missing_cover_art_witness :
    ((MDEntity.mk "m1" "manga"
        (some (MangaAttributes.mk [("en", "T")] [("en", "D")] "ongoing" none none
          "2024" [])) (some [MDRel.mk "r1" "author" none])).relationships
        = some [MDRel.mk "r1" "author" none]
      ∧ (∀ rel ∈ [MDRel.mk "r1" "author" none], rel.type ≠ "cover_art")
      ∧ (fun _ => (.ok "data" : Except JsError String))
          (latestCoverUrl (MDEntity.mk "m1" "manga"
            (some (MangaAttributes.mk [("en", "T")] [("en", "D")] "ongoing" none none
              "2024" [])) (some [MDRel.mk "r1" "author" none]))) = .ok "data")
    ∧ findCoverFileName (MDEntity.mk "m1" "manga"
        (some (MangaAttributes.mk [("en", "T")] [("en", "D")] "ongoing" none none
          "2024" [])) (some [MDRel.mk "r1" "author" none])).relationships = none
    ∧ latestItem (fun _ => .ok "data") (MDEntity.mk "m1" "manga"
        (some (MangaAttributes.mk [("en", "T")] [("en", "D")] "ongoing" none none
          "2024" [])) (some [MDRel.mk "r1" "author" none]))
        = .ok (LatestItem.mk "m1" (some "2024") "data" (some "T"))
    ∧ carouselItem (fun _ => .ok "data") (MDEntity.mk "m1" "manga"
        (some (MangaAttributes.mk [("en", "T")] [("en", "D")] "ongoing" none none
          "2024" [])) (some [MDRel.mk "r1" "author" none]))
        = .error .typeError := by
  have h := c4_missing_cover_art (fun _ => .ok "data")
    (MDEntity.mk "m1" "manga"
      (some (MangaAttributes.mk [("en", "T")] [("en", "D")] "ongoing" none none
        "2024" [])) (some [MDRel.mk "r1" "author" none]))
    (MDEntity.mk "m1" "manga"
      (some (MangaAttributes.mk [("en", "T")] [("en", "D")] "ongoing" none none
        "2024" [])) (some [MDRel.mk "r1" "author" none]))
    [MDRel.mk "r1" "author" none] [MDRel.mk "r1" "author" none]
    (MangaAttributes.mk [("en", "T")] [("en", "D")] "ongoing" none none "2024" [])
    "data" rfl (by decide) rfl rfl (by decide) rfl
  exact ⟨⟨rfl, by decide, rfl⟩, h.1, h.2.2.1, h.2.2.2⟩

/-- C5: for every manga entity whose `attributes.title` mapping is exactly
`ja-ro: Foo` (no `en` key), the view model built by
`getLatestManga`/`searchManga` and the one built by `Carousel` both carry the
title `Foo`: the missing translation is handled by the `||` fallback chain
rather than by raising. -/
theorem c5_title_fallback (fc : String → Except JsError String)
    (k m : MDEntity) (ak am : MangaAttributes) (itemL : LatestItem) (itemC : CarouselItem)
    (hka : k.attributes = some ak) (hkt : ak.title = [("ja-ro", "Foo")])
    (hma : m.attributes = some am) (hmt : am.title = [("ja-ro", "Foo")])
    (hL : latestItem fc k = .ok itemL) (hC : carouselItem fc m = .ok itemC) :
    itemL.title = some "Foo" ∧ itemC.title = some "Foo" := by
  constructor
  · cases hfc : fc (latestCoverUrl k) with
    | error e => rw [latestItem, hfc] at hL; cases hL
    | ok c =>
      rw [latestItem, hfc] at hL
      cases hL
      simp [latestTitle, hka, hkt, lookupKey, jsOr, falsy]
  · cases hcu : carouselCoverUrl m with
    | error e =>
      simp only [carouselItem, hma, hcu] at hC
      exact Except.noConfusion hC
    | ok url =>
      cases hfc : fc url with
      | error e =>
        simp only [carouselItem, hma, hcu, hfc] at hC
        exact Except.noConfusion hC
      | ok c =>
        simp only [carouselItem, hma, hcu, hfc, Except.ok.injEq] at hC
        rw [← hC]
        simp [hmt, lookupKey, jsOr, falsy]

/-- C5 witness: a concrete entity whose title map is exactly `ja-ro: Foo`
satisfies the hypotheses of `c5_title_fallback` with concrete view models,
and both view models carry the title `Foo`. -/
theorem c5_title_fallback_witness :
    ((MDEntity.mk "m1" "manga"
        (some (MangaAttributes.mk [("ja-ro", "Foo")] [("en", "D")] "ongoing" none none
          "2024" []))
        (some [MDRel.mk "r1" "cover_art" (some (RelAttributes.mk (some "f.jpg")))])).attributes
        = some (MangaAttributes.mk [("ja-ro", "Foo")] [("en", "D")] "ongoing" none none
          "2024" [])
      ∧ latestItem (fun _ => .ok "data") (MDEntity.mk "m1" "manga"
          (some (MangaAttributes.mk [("ja-ro", "Foo")] [("en", "D")] "ongoing" none none
            "2024" []))
          (some [MDRel.mk "r1" "cover_art" (some (RelAttributes.mk (some "f.jpg")))]))
        = .ok (LatestItem.mk "m1" (some "2024") "data" (some "Foo"))
      ∧ carouselItem (fun _ => .ok "data") (MDEntity.mk "m1" "manga"
          (some (MangaAttributes.mk [("ja-ro", "Foo")] [("en", "D")] "ongoing" none none
            "2024" []))
          (some [MDRel.mk "r1" "cover_art" (some (RelAttributes.mk (some "f.jpg")))]))
        = .ok (CarouselItem.mk "m1" [] "data" (some "Foo") none none "ongoing"
            (some "D") "manga"))
    ∧ (LatestItem.mk "m1" (some "2024") "data" (some "Foo")).title = some "Foo"
    ∧ (CarouselItem.mk "m1" [] "data" (some "Foo") none none "ongoing"
        (some "D") "manga").title = some "Foo" := by
  refine ⟨⟨rfl, rfl, rfl⟩, ?_⟩
  exact c5_title_fallback (fun _ => .ok "data")
    (MDEntity.mk "m1" "manga"
      (some (MangaAttributes.mk [("ja-ro", "Foo")] [("en", "D")] "ongoing" none none
        "2024" []))
      (some [MDRel.mk "r1" "cover_art" (some (RelAttributes.mk (some "f.jpg")))]))
    (MDEntity.mk "m1" "manga"
      (some (MangaAttributes.mk [("ja-ro", "Foo")] [("en", "D")] "ongoing" none none
        "2024" []))
      (some [MDRel.mk "r1" "cover_art" (some (RelAttributes.mk (some "f.jpg")))]))
    (MangaAttributes.mk [("ja-ro", "Foo")] [("en", "D")] "ongoing" none none "2024" [])
    (MangaAttributes.mk [("ja-ro", "Foo")] [("en", "D")] "ongoing" none none "2024" [])
    (LatestItem.mk "m1" (some "2024") "data" (some "Foo"))
    (CarouselItem.mk "m1" [] "data" (some "Foo") none none "ongoing" (some "D") "manga")
    rfl rfl rfl rfl rfl rfl

/-- C6: when the Carousel's fetched page holds 20 (pairwise distinct)
entities, the selection step `getRandomManga` — shuffle (a permutation, as
`Array.prototype.sort` always returns) followed by `slice(0, 6)` — returns
exactly 6 unique entities, each drawn from that page; no entity outside the
fetched page appears. -/
theorem c6_carousel_selection (shuffle : List MDEntity → List MDEntity)
    (page sel : List MDEntity)
    (hperm : (shuffle page).Perm page)
    (hlen : page.length = 20)
    (hnodup : page.Nodup)
    (hsel : getRandomManga shuffle (some { data := some page }) 6 = .ok sel) :
    sel.length = 6 ∧ (∀ x ∈ sel, x ∈ page) ∧ sel.Nodup := by
  have hs : (shuffle page).take 6 = sel := by
    simpa [getRandomManga, coversItems] using hsel
  subst hs
  refine ⟨?_, ?_, ?_⟩
  · rw [List.length_take, hperm.length_eq, hlen]
    decide
  · intro x hx
    exact hperm.subset (List.take_subset 6 _ hx)
  · exact List.Nodup.sublist (List.take_sublist 6 _) (hperm.nodup_iff.mpr hnodup)

/-- C6 witness: a concrete 20-entity page with distinct ids, shuffled by the
identity permutation, satisfies the hypotheses of `c6_carousel_selection`,
and its selection is 6 unique entities from the page. -/
theorem c6_carousel_selection_witness :
    ((id ((List.range 20).map fun i => mkEntity (toString i))).Perm
        ((List.range 20).map fun i => mkEntity (toString i))
      ∧ ((List.range 20).map fun i => mkEntity (toString i)).length = 20
      ∧ ((List.range 20).map fun i => mkEntity (toString i)).Nodup
      ∧ getRandomManga id
          (some { data := some ((List.range 20).map fun i => mkEntity (toString i)) }) 6
          = .ok ((id ((List.range 20).map fun i => mkEntity (toString i))).take 6))
    ∧ (((id ((List.range 20).map fun i => mkEntity (toString i))).take 6).length = 6
      ∧ (∀ x ∈ (id ((List.range 20).map fun i => mkEntity (toString i))).take 6,
          x ∈ (List.range 20).map fun i => mkEntity (toString i))
      ∧ ((id ((List.range 20).map fun i => mkEntity (toString i))).take 6).Nodup) := by
  refine ⟨⟨List.Perm.refl _, by decide, by decide, rfl⟩, ?_⟩
  exact c6_carousel_selection id ((List.range 20).map fun i => mkEntity (toString i))
    ((id ((List.range 20).map fun i => mkEntity (toString i))).take 6)
    (List.Perm.refl _) (by decide) (by decide) rfl

end Mangaotaku
